import Mathlib

/-!
# Verification of `bleep/characteristic.py`

A shallow embedding of the GATT attribute layer of the `bleep` library
(`src/bleep/characteristic.py`): the `BLEAttribute` base class, the
`BLEDescriptor` and `BLECharacteristic` classes, descriptor discovery, and
notification/indication dispatch.  Pure Python values become Lean values;
the mutable device-side handle registry becomes explicit state passing;
Python exceptions become `Except`/`Option` results.

Parts of the repository that the module imports from the missing
`bleep/util.py` (`is_short_uuid`, `UUIDAccessor`) are modelled from the
specification and are marked as such in their doc comments.
-/

set_option autoImplicit false

/-- Byte strings (Python `bytes`): a list of byte values. -/
abbrev Bytes := List Nat

/-- 128-bit UUIDs, represented by their integer value (Python `uuid.UUID.int`). -/
abbrev Uuid := Nat

/-- The Python exceptions that the embedded code can raise or propagate.

`runtimeError` is the `RuntimeError` that pygattlib raises when the device
responds with an error, which (per the source comment at
characteristic.py:179-180) also happens when a descriptor cannot be found.
`otherError` stands for any other transport-level exception class. -/
inductive PyErr where
  | typeError
  | nameError
  | runtimeError
  | otherError (code : Nat)
  deriving DecidableEq, Repr

/-- The device's handle registry (the mutable state touched by
`device.register_handle(handle, attr)` at characteristic.py:52).

Each entry records the handle under which an attribute was registered
together with that attribute's identity at registration time.  At the point
of the `register_handle` call the attribute has exactly its `value_handle`
and `uuid` fields set (the callback lists are assigned only afterwards, at
characteristic.py:55-56), so the snapshot `(value_handle, uuid)` is the
registered object's state. -/
structure DeviceState where
  registry : List (Nat × Uuid)
  deriving DecidableEq, Repr

/-- `device.register_handle(handle, attr)`: appends the registration to the
device's handle registry. -/
def register_handle (dev : DeviceState) (h : Nat) (u : Uuid) : DeviceState :=
  ⟨dev.registry ++ [(h, u)]⟩

/-- A notification/indication callback.  `id` is the identity of the Python
function object (used to observe which callback was invoked, and in which
order); `behavior` says, for a given payload, whether the call returns
normally (`none`) or raises an exception (`some e`). -/
structure Callback where
  id : Nat
  behavior : Bytes → Option PyErr

/-- `BLEAttribute` (characteristic.py:27-114): the state of one attribute
object after construction — its value handle, its UUID, and the two
callback registries populated by `notify`/`indicate`. -/
structure BLEAttribute where
  value_handle : Nat
  uuid : Uuid
  notification_callbacks : List Callback
  indication_callbacks : List Callback

/-- `BLEAttribute.__init__(self, device, handle, uuid)`
(characteristic.py:36-56): stores `handle` as `value_handle` and `uuid`,
registers the attribute with the device under `value_handle`
(characteristic.py:52), and initialises both callback lists to empty.
Returns the constructed attribute together with the updated device state. -/
def BLEAttribute.init (dev : DeviceState) (handle : Nat) (uuid : Uuid) :
    BLEAttribute × DeviceState :=
  (⟨handle, uuid, [], []⟩, register_handle dev handle uuid)

/-- `BLEDescriptor` adds no fields to `BLEAttribute`
(characteristic.py:116-130). -/
abbrev BLEDescriptor := BLEAttribute

/-- `BLEDescriptor.__init__(self, device, handle, uuid)`
(characteristic.py:119-127): delegates to `BLEAttribute.__init__` with the
same arguments. -/
def BLEDescriptor.init (dev : DeviceState) (handle : Nat) (uuid : Uuid) :
    BLEDescriptor × DeviceState :=
  BLEAttribute.init dev handle uuid

/-- One observable call made against the device's transport. -/
inductive TransportCall where
  | readCall (handle : Nat)
  | writeCall (handle : Nat) (data : Bytes) (response : Bool)
  deriving DecidableEq, Repr

/-- The device's blocking transport operations (`device.read_handle`,
`device.write_handle`), as an oracle: each operation either returns a value
or fails with an exception. -/
structure Transport where
  read_handle : Nat → Except PyErr Bytes
  write_handle : Nat → Bytes → Bool → Except PyErr Unit

/-- `BLEAttribute.read(self)` (characteristic.py:69-75):
`return self.device.read_handle(self.value_handle)`.  The result pairs the
list of transport calls made with the transport's (unmodified) result. -/
def BLEAttribute.read (a : BLEAttribute) (t : Transport) :
    List TransportCall × Except PyErr Bytes :=
  ([TransportCall.readCall a.value_handle], t.read_handle a.value_handle)

/-- `BLEAttribute.write(self, data, response=True)` (characteristic.py:77-85):
`return self.device.write_handle(self.value_handle, data, response)`. -/
def BLEAttribute.write (a : BLEAttribute) (t : Transport) (data : Bytes)
    (response : Bool) : List TransportCall × Except PyErr Unit :=
  ([TransportCall.writeCall a.value_handle data response],
    t.write_handle a.value_handle data response)

/-- `BLEAttribute.notify(self, function)` (characteristic.py:87-94): appends
`function` to `self._notification_callbacks`.  No deduplication. -/
def BLEAttribute.notify (a : BLEAttribute) (f : Callback) : BLEAttribute :=
  { a with notification_callbacks := a.notification_callbacks ++ [f] }

/-- `BLEAttribute.indicate(self, function)` (characteristic.py:96-103):
appends `function` to `self._indication_callbacks`. -/
def BLEAttribute.indicate (a : BLEAttribute) (f : Callback) : BLEAttribute :=
  { a with indication_callbacks := a.indication_callbacks ++ [f] }

/-- The dispatch loop shared by `_on_notification` and `_on_indication`
(characteristic.py:105-111):

```python
for callback in self._notification_callbacks:
    callback(data)
```

There is no `try`/`except` around the call, so a callback that raises
aborts the loop and the exception propagates; callbacks after the raising
one are not invoked.  The result is the trace of invocations actually made
(each as `(callback id, payload)`, in order) together with the exception
that escaped the loop, if any. -/
def runCallbacks : List Callback → Bytes → List (Nat × Bytes) × Option PyErr
  | [], _ => ([], none)
  | cb :: rest, data =>
    match cb.behavior data with
    | some e => ([(cb.id, data)], some e)
    | none =>
      let r := runCallbacks rest data
      ((cb.id, data) :: r.1, r.2)

/-- `BLEAttribute._on_notification(self, data)` (characteristic.py:105-107):
runs every registered notification callback on `data`, in order. -/
def BLEAttribute.on_notification (a : BLEAttribute) (data : Bytes) :
    List (Nat × Bytes) × Option PyErr :=
  runCallbacks a.notification_callbacks data

/-- `BLEAttribute._on_indication(self, data)` (characteristic.py:109-111). -/
def BLEAttribute.on_indication (a : BLEAttribute) (data : Bytes) :
    List (Nat × Bytes) × Option PyErr :=
  runCallbacks a.indication_callbacks data

/-- The transport's descriptor-discovery operation
(`device.requester.discover_descriptors(start, end)` at
characteristic.py:170).  It yields a sequence of elements; processing an
element inside the loop body either produces a `{handle, uuid}` pair and a
successfully constructed descriptor (`Except.ok`), or raises an exception
while that descriptor is being looked up/constructed (`Except.error`) — per
the source comment, pygattlib raises `RuntimeError` when the device responds
with an error, which also happens when a descriptor cannot be found. -/
structure Requester where
  discover_descriptors : Nat → Nat → List (Except PyErr (Nat × Uuid))

/-- One step of the dict update in the discovery loop
(characteristic.py:174-177):

```python
if desc.uuid in descriptors:
    descriptors[desc.uuid].append(desc)
else:
    descriptors[desc.uuid] = [desc]
```

The Python dict keeps keys in first-insertion order; it is embedded as an
association list from UUID to the ordered bucket of descriptors. -/
def bucketAdd (buckets : List (Uuid × List BLEDescriptor)) (d : BLEDescriptor) :
    List (Uuid × List BLEDescriptor) :=
  if buckets.any (fun p => p.1 == d.uuid) then
    buckets.map (fun p => if p.1 == d.uuid then (p.1, p.2 ++ [d]) else p)
  else
    buckets ++ [(d.uuid, [d])]

/-- The discovery `for` loop (characteristic.py:170-181).  State: the
`descriptors` dict being built, the loop variable `desc` (which Python
leaves unbound, `none`, until the first successful iteration), and the
device state updated by each `BLEDescriptor` construction.  An element that
raises `RuntimeError` is caught by `except RuntimeError: pass` and the loop
continues; any other exception propagates. -/
def discoverLoop (dev : DeviceState) (items : List (Except PyErr (Nat × Uuid)))
    (buckets : List (Uuid × List BLEDescriptor)) (last : Option BLEDescriptor) :
    Except PyErr (List (Uuid × List BLEDescriptor) × Option BLEDescriptor × DeviceState) :=
  match items with
  | [] => Except.ok (buckets, last, dev)
  | Except.error e :: rest =>
    if e = PyErr.runtimeError then
      discoverLoop dev rest buckets last
    else
      Except.error e
  | Except.ok (h, u) :: rest =>
    let r := BLEDescriptor.init dev h u
    discoverLoop r.2 rest (bucketAdd buckets r.1) (some r.1)

/-- What `BLECharacteristic._discover_descriptors` actually returns
(characteristic.py:164-183).  The early return at line 168 returns the
(empty) `descriptors` dict; the final return at line 183 is `return desc` —
the *last* constructed `BLEDescriptor`, not the dict. -/
inductive DiscoverResult where
  | emptyDict
  | lastDesc (d : BLEDescriptor)

/-- `BLECharacteristic._discover_descriptors(self)`
(characteristic.py:164-183), as a function of the fields it reads
(`self.device.requester`, the device state, `self.value_handle`,
`self.end_handle`).

* If `value_handle + 1 > end_handle`, returns the empty dict without
  calling the transport (lines 167-168).
* Otherwise makes exactly one `discover_descriptors(value_handle + 1,
  end_handle)` call and runs the loop; at the end it executes
  `return desc` (line 183): if no iteration ever bound `desc`, Python
  raises `NameError` for the unbound local, otherwise the last
  descriptor object is returned (and the `descriptors` dict is discarded).

The second component of the result is the trace of
`discover_descriptors` transport calls made, as `(start, end)` pairs. -/
def BLECharacteristic.discover_descriptors (req : Requester) (dev : DeviceState)
    (value_handle end_handle : Nat) :
    Except PyErr (DiscoverResult × DeviceState) × List (Nat × Nat) :=
  if value_handle + 1 > end_handle then
    (Except.ok (DiscoverResult.emptyDict, dev), [])
  else
    match discoverLoop dev (req.discover_descriptors (value_handle + 1) end_handle) [] none with
    | Except.error e => (Except.error e, [(value_handle + 1, end_handle)])
    | Except.ok (_, none, _) =>
      (Except.error PyErr.nameError, [(value_handle + 1, end_handle)])
    | Except.ok (_, some d, dev2) =>
      (Except.ok (DiscoverResult.lastDesc d, dev2), [(value_handle + 1, end_handle)])

/-- The per-UUID bucket map (`descriptors` local of
`_discover_descriptors`) as it stands when the loop finishes — the value
the accessors at characteristic.py:161-162 are documented to be built over
(the code instead returns the loop variable `desc`, see
`DiscoverResult.lastDesc`). -/
def discoverBucketsOf (req : Requester) (dev : DeviceState)
    (value_handle end_handle : Nat) :
    Except PyErr (List (Uuid × List BLEDescriptor)) :=
  if value_handle + 1 > end_handle then
    Except.ok []
  else
    match discoverLoop dev (req.discover_descriptors (value_handle + 1) end_handle) [] none with
    | Except.error e => Except.error e
    | Except.ok (buckets, _, _) => Except.ok buckets

/-- Failures of unique-mode accessor lookup. -/
inductive AccessError where
  | notFound
  | ambiguousKey
  deriving DecidableEq, Repr

/-- Modelled from the spec: `UUIDAccessor` is imported from `bleep/util.py`,
which is not among the source files.  Per the spec it "wraps a mapping from
UUID to an ordered sequence of attributes"; the constructor in the source is
called as `UUIDAccessor(mapping)` for the unique-mode view and
`UUIDAccessor(mapping, True)` for the list-mode view, and the two modes are
exposed here as `get_unique` and `get_all` (spec section 4.2). -/
structure UUIDAccessor where
  table : List (Uuid × List BLEAttribute)

/-- The bucket stored under a UUID, or the empty sequence when the key is
absent. -/
def UUIDAccessor.bucket (a : UUIDAccessor) (u : Uuid) : List BLEAttribute :=
  match a.table.find? (fun p => p.1 == u) with
  | some p => p.2
  | none => []

/-- Modelled from the spec: list-mode access — "returns the full ordered
sequence of attributes bound to `uuid` (possibly empty)". -/
def UUIDAccessor.get_all (a : UUIDAccessor) (u : Uuid) : List BLEAttribute :=
  a.bucket u

/-- Modelled from the spec: unique-mode access — "Fails with a `NotFound`
condition if no entry exists; fails with an `AmbiguousKey` condition if more
than one attribute shares that UUID"; otherwise returns the single bound
attribute. -/
def UUIDAccessor.get_unique (a : UUIDAccessor) (u : Uuid) :
    Except AccessError BLEAttribute :=
  match a.bucket u with
  | [] => Except.error AccessError.notFound
  | [d] => Except.ok d
  | _ :: _ :: _ => Except.error AccessError.ambiguousKey

/-- The fields `BLECharacteristic.__init__` (characteristic.py:145-162) is
written to populate. -/
structure BLECharacteristic where
  attr : BLEAttribute
  handle : Nat
  end_handle : Nat
  properties : Nat
  descriptor : UUIDAccessor
  descriptors : UUIDAccessor

/-- `BLECharacteristic.__init__(self, device, handle, value_handle,
end_handle, uuid, properties)` (characteristic.py:145-162).

The class statement (characteristic.py:132) is `class BLECharacteristic:`
with no base class, yet the first statement of the constructor (line 153) is

```python
super(BLECharacteristic, self).__init__(self, device, value_handle, uuid)
```

With no declared base the MRO is `[BLECharacteristic, object]`, so the bound
method is `object.__init__`, and it receives four extra positional
arguments (`self` is passed again explicitly, then `device`, `value_handle`,
`uuid`).  CPython's `object.__init__` raises
`TypeError: object.__init__() takes exactly one argument` whenever it is
given extra arguments and the type overrides `__init__` (as
`BLECharacteristic` does).  The raise happens before any field assignment,
before `BLEAttribute.__init__` could run (so nothing is registered with the
device), and before descriptor discovery.  Construction therefore always
fails with `TypeError` and leaves the device state untouched. -/
def BLECharacteristic.init (req : Requester) (dev : DeviceState)
    (handle value_handle end_handle : Nat) (uuid : Uuid) (properties : Nat) :
    Except PyErr (BLECharacteristic × DeviceState) :=
  Except.error PyErr.typeError

/-- The lowercase hexadecimal digit for a value in `0..15`. -/
def hexDigitChar (n : Nat) : Char :=
  if n < 10 then Char.ofNat (48 + n) else Char.ofNat (87 + n)

/-- The `w` low hexadecimal digits of `n`, most significant first (the
fixed-width groups of Python's `str(uuid.UUID(...))` rendering). -/
def natToHexFixed : Nat → Nat → List Char
  | 0, _ => []
  | w + 1, n => natToHexFixed w (n / 16) ++ [hexDigitChar (n % 16)]

/-- The character sequence of `str(self.uuid)` for a `uuid.UUID` with
integer value `u`: 32 lowercase hex digits in groups of 8-4-4-4-12
separated by hyphens, most significant digits first. -/
def uuidChars (u : Uuid) : List Char :=
  natToHexFixed 8 (u / 2 ^ 96) ++ [Char.ofNat 45] ++
  natToHexFixed 4 (u / 2 ^ 80 % 2 ^ 16) ++ [Char.ofNat 45] ++
  natToHexFixed 4 (u / 2 ^ 64 % 2 ^ 16) ++ [Char.ofNat 45] ++
  natToHexFixed 4 (u / 2 ^ 48 % 2 ^ 16) ++ [Char.ofNat 45] ++
  natToHexFixed 12 (u % 2 ^ 48)

/-- `str(self.uuid)`: the full textual form of the UUID. -/
def uuidStr (u : Uuid) : String :=
  String.mk (uuidChars u)

/-- The low 96 bits shared by every UUID built on the Bluetooth SIG base
UUID `0000XXXX-0000-1000-8000-00805f9b34fb`. -/
def BLUETOOTH_BASE_SUFFIX : Nat := 0x00001000800000805F9B34FB

/-- Modelled from the spec: `is_short_uuid` is imported from
`bleep/util.py`, which is not among the source files.  Per the spec it
decides whether a 128-bit UUID "is of the form
`0000XXXX-0000-1000-8000-00805F9B34FB` (the Bluetooth SIG base UUID with a
variable 16-bit segment)": the top 16 bits are zero and the low 96 bits
match the base UUID exactly. -/
def is_short_uuid (u : Uuid) : Bool :=
  decide (u / 2 ^ 112 = 0) && decide (u % 2 ^ 96 = BLUETOOTH_BASE_SUFFIX)

/-- `BLEAttribute.shortest_uuid(self)` (characteristic.py:58-67):

```python
if is_short_uuid(self.uuid):
    return str(self.uuid)[4:8]
else:
    return str(self.uuid)
```

The slice `[4:8]` takes characters 4 to 7 of the full textual form. -/
def shortest_uuid (u : Uuid) : String :=
  if is_short_uuid u then
    String.mk (((uuidChars u).drop 4).take 4)
  else
    uuidStr u

/-! ## Concrete sample inputs used by witnesses and counterexamples -/

/-- A device whose handle registry is empty. -/
def dev0 : DeviceState := ⟨[]⟩

/-- The payload `b'\x01\x02'`. -/
def samplePayload : Bytes := [1, 2]

/-- A callback (id 1) that always returns normally. -/
def cbOkOne : Callback := ⟨1, fun _ => none⟩

/-- A callback (id 2) that always returns normally. -/
def cbOkTwo : Callback := ⟨2, fun _ => none⟩

/-- A callback (id 9) that raises `RuntimeError` on every payload. -/
def cbRaising : Callback := ⟨9, fun _ => some PyErr.runtimeError⟩

/-- A bare attribute at value handle 3 with no registered callbacks. -/
def sampleAttr : BLEAttribute := ⟨3, 0, [], []⟩

/-- Two distinct sample descriptor UUIDs. -/
def uuidA : Uuid := 1

/-- See `uuidA`. -/
def uuidB : Uuid := 2

/-- A requester whose descriptor discovery reports the ordered pairs
`[(10, UuidA), (11, UuidB), (12, UuidA)]`, every lookup succeeding. -/
def sampleDiscReq : Requester :=
  ⟨fun _ _ => [Except.ok (10, uuidA), Except.ok (11, uuidB), Except.ok (12, uuidA)]⟩

/-- A requester whose descriptor discovery reports a single element whose
lookup raises the not-found `RuntimeError`. -/
def sampleNotFoundReq : Requester :=
  ⟨fun _ _ => [Except.error PyErr.runtimeError]⟩

/-- The bucket map `[(UuidA, [attr10, attr12]), (UuidB, [attr11])]` that the
discovery loop builds for `sampleDiscReq`. -/
def sampleBuckets : List (Uuid × List BLEDescriptor) :=
  [(uuidA, [⟨10, uuidA, [], []⟩, ⟨12, uuidA, [], []⟩]),
   (uuidB, [⟨11, uuidB, [], []⟩])]

/-! ## Helper lemmas -/

/-- Registering callbacks with `notify` appends them, in order, to the
notification callback list. -/
theorem foldl_notify_callbacks (cbs : List Callback) (a : BLEAttribute) :
    (cbs.foldl BLEAttribute.notify a).notification_callbacks
      = a.notification_callbacks ++ cbs := by
  induction cbs generalizing a with
  | nil => simp
  | cons c rest ih => simp [BLEAttribute.notify, ih]

/-- When every callback returns normally, the dispatch loop produces one
trace entry per callback, in order, and no exception. -/
theorem runCallbacks_all_ok (cbs : List Callback) (data : Bytes)
    (h : ∀ c ∈ cbs, c.behavior data = none) :
    runCallbacks cbs data = (cbs.map fun c => (c.id, data), none) := by
  induction cbs with
  | nil => rfl
  | cons c rest ih =>
    have hc : c.behavior data = none := h c (by simp)
    simp [runCallbacks, hc, ih fun x hx => h x (by simp [hx])]

/-- A discovery sequence consisting only of caught not-found errors leaves
the loop state unchanged. -/
theorem discoverLoop_all_not_found (dev : DeviceState)
    (items : List (Except PyErr (Nat × Uuid)))
    (buckets : List (Uuid × List BLEDescriptor)) (last : Option BLEDescriptor)
    (h : ∀ it ∈ items, it = Except.error PyErr.runtimeError) :
    discoverLoop dev items buckets last = Except.ok (buckets, last, dev) := by
  induction items with
  | nil => rfl
  | cons it rest ih =>
    have hit : it = Except.error PyErr.runtimeError := h it (by simp)
    subst hit
    exact ih fun x hx => h x (by simp [hx])

/-! ## Claim theorems -/

/-- C1: the spec (and the class docstring at characteristic.py:139-142)
require the stored descriptor accessors to be built over the per-UUID
bucket mapping.  The code instead: (a) `_discover_descriptors` executes
`return desc` (line 183), so for the discovery sequence
`[(10,UuidA),(11,UuidB),(12,UuidA)]` over range `(9,12]` it returns the
single last-constructed descriptor (handle 12), discarding the bucket map
it built; and (b) `BLECharacteristic.__init__` raises `TypeError` at its
`super` call before the accessors at lines 161-162 could be built at all.
The bucket map the loop does build, and the accessor behaviour the claim
describes over that map (get_all in discovery order, AmbiguousKey for the
duplicated UUID, the unique attribute for the other), are exhibited for
contrast. -/
theorem c1_discovery_returns_last_descriptor_not_buckets :
    (BLECharacteristic.discover_descriptors sampleDiscReq dev0 9 12
      = (Except.ok (DiscoverResult.lastDesc ⟨12, uuidA, [], []⟩,
          ⟨[(10, uuidA), (11, uuidB), (12, uuidA)]⟩), [(10, 12)])) ∧
    discoverBucketsOf sampleDiscReq dev0 9 12 = Except.ok sampleBuckets ∧
    (UUIDAccessor.mk sampleBuckets).get_all uuidA
      = [⟨10, uuidA, [], []⟩, ⟨12, uuidA, [], []⟩] ∧
    (UUIDAccessor.mk sampleBuckets).get_unique uuidA
      = Except.error AccessError.ambiguousKey ∧
    (UUIDAccessor.mk sampleBuckets).get_unique uuidB
      = Except.ok ⟨11, uuidB, [], []⟩ ∧
    BLECharacteristic.init sampleDiscReq dev0 9 10 12 uuidA 0
      = Except.error PyErr.typeError :=
  ⟨rfl, rfl, rfl, rfl, rfl, rfl⟩

/-- C2: the claim says construction of a `BLECharacteristic` succeeds and
stores the supplied values.  In the code, `class BLECharacteristic:` has no
base class, so the `super(...).__init__(self, device, value_handle, uuid)`
call at characteristic.py:153 invokes `object.__init__` with four extra
positional arguments and raises `TypeError` for every input: construction
never succeeds and no field is ever populated. -/
theorem c2_characteristic_init_always_raises_type_error
    (req : Requester) (dev : DeviceState)
    (handle value_handle end_handle : Nat) (uuid : Uuid) (properties : Nat) :
    BLECharacteristic.init req dev handle value_handle end_handle uuid properties
      = Except.error PyErr.typeError :=
  rfl

/-- C3: descriptor construction does register the new attribute in the
device's handle registry under its `value_handle` before returning
(characteristic.py:52), but no `BLECharacteristic` is ever constructed or
registered: its constructor raises `TypeError` at the `super` call, before
`BLEAttribute.__init__` (and hence `register_handle`) could run. -/
theorem c3_descriptor_registers_characteristic_never_constructed :
    (∀ (dev : DeviceState) (handle : Nat) (uuid : Uuid),
      (BLEDescriptor.init dev handle uuid).1.value_handle = handle ∧
      (BLEDescriptor.init dev handle uuid).1.uuid = uuid ∧
      (BLEDescriptor.init dev handle uuid).2.registry
        = dev.registry ++ [(handle, uuid)]) ∧
    (∀ (req : Requester) (dev : DeviceState)
      (handle value_handle end_handle : Nat) (uuid : Uuid) (properties : Nat),
      BLECharacteristic.init req dev handle value_handle end_handle uuid properties
        = Except.error PyErr.typeError) :=
  ⟨fun _ _ _ => ⟨rfl, rfl, rfl⟩, fun _ _ _ _ _ _ _ => rfl⟩

/-- C4 counterexample: the claim says a raising callback does not prevent
later-registered callbacks from being invoked.  Dispatching to the
registered sequence `[cbRaising, cbOkTwo]` (characteristic.py:105-107 has
no `try`/`except`) invokes only `cbRaising`, propagates its exception, and
never invokes `cbOkTwo`: no trace entry `(2, payload)` exists. -/
theorem c4_counterexample_second_callback_not_invoked :
    BLEAttribute.on_notification ⟨3, 0, [cbRaising, cbOkTwo], []⟩ samplePayload
      = ([(9, [1, 2])], some PyErr.runtimeError) ∧
    (2, [1, 2]) ∉
      (BLEAttribute.on_notification ⟨3, 0, [cbRaising, cbOkTwo], []⟩ samplePayload).1 :=
  ⟨rfl, by decide⟩

/-- C4 (amended): when the callbacks registered for notifications are
`pre ++ [cb] ++ post` with every callback in `pre` returning normally and
`cb` raising `e`, dispatch invokes the callbacks of `pre` and then `cb`
(each with the payload), the exception `e` escapes the loop, and no
callback in `post` is invoked. -/
theorem c4_dispatch_aborts_at_first_raising_callback (a : BLEAttribute)
    (pre post : List Callback) (cb : Callback) (data : Bytes) (e : PyErr)
    (hcbs : a.notification_callbacks = pre ++ cb :: post)
    (hpre : ∀ c ∈ pre, c.behavior data = none)
    (hcb : cb.behavior data = some e) :
    BLEAttribute.on_notification a data
      = ((pre.map fun c => (c.id, data)) ++ [(cb.id, data)], some e) := by
  unfold BLEAttribute.on_notification
  rw [hcbs]
  clear hcbs
  induction pre with
  | nil => simp [runCallbacks, hcb]
  | cons c rest ih =>
    have hc : c.behavior data = none := hpre c (by simp)
    simp [runCallbacks, hc, ih fun x hx => hpre x (by simp [hx])]

/-- C4 witness: with registered callbacks `[cbOkOne, cbRaising, cbOkTwo]`,
dispatch invokes callback 1 and then the raising callback 9, and the
`RuntimeError` escapes. -/
theorem c4_witness :
    BLEAttribute.on_notification ⟨3, 0, [cbOkOne, cbRaising, cbOkTwo], []⟩ samplePayload
      = ([(1, [1, 2]), (9, [1, 2])], some PyErr.runtimeError) :=
  c4_dispatch_aborts_at_first_raising_callback
    ⟨3, 0, [cbOkOne, cbRaising, cbOkTwo], []⟩ [cbOkOne] [cbOkTwo] cbRaising
    samplePayload PyErr.runtimeError rfl
    (by intro c hc
        simp only [List.mem_singleton] at hc
        subst hc
        rfl)
    rfl

/-- C5: during descriptor discovery over the range `(5,8]`, one successful
pair followed by a not-found `RuntimeError` yields a successful return with
a one-element descriptor bucket map (the error is caught by the
`except RuntimeError: pass` at characteristic.py:178-181 and does not
propagate), while an element raising any other exception makes that
exception propagate out of `_discover_descriptors`. -/
theorem c5_not_found_caught_other_errors_propagate (dev : DeviceState)
    (h : Nat) (u : Uuid) (e : PyErr) (he : e ≠ PyErr.runtimeError) :
    (BLECharacteristic.discover_descriptors
        ⟨fun _ _ => [Except.ok (h, u), Except.error PyErr.runtimeError]⟩ dev 5 8
      = (Except.ok (DiscoverResult.lastDesc ⟨h, u, [], []⟩,
          ⟨dev.registry ++ [(h, u)]⟩), [(6, 8)])) ∧
    (discoverBucketsOf
        ⟨fun _ _ => [Except.ok (h, u), Except.error PyErr.runtimeError]⟩ dev 5 8
      = Except.ok [(u, [⟨h, u, [], []⟩])]) ∧
    (BLECharacteristic.discover_descriptors
        ⟨fun _ _ => [Except.ok (h, u), Except.error e]⟩ dev 5 8
      = (Except.error e, [(6, 8)])) := by
  refine ⟨rfl, rfl, ?_⟩
  unfold BLECharacteristic.discover_descriptors
  rw [if_neg (by omega)]
  simp only [discoverLoop, bucketAdd, BLEDescriptor.init, BLEAttribute.init]
  rw [if_neg he]

/-- C5 witness at a concrete device, pair and error. -/
theorem c5_witness :
    BLECharacteristic.discover_descriptors
        ⟨fun _ _ => [Except.ok (6, 77), Except.error PyErr.typeError]⟩ dev0 5 8
      = (Except.error PyErr.typeError, [(6, 8)]) :=
  (c5_not_found_caught_other_errors_propagate dev0 6 77 PyErr.typeError
    (by decide)).2.2

/-- C7: `read` makes exactly one `read_handle` transport call on
`value_handle` and returns the transport's result unchanged (including
errors); `write` makes exactly one `write_handle` call with arguments
`(value_handle, data, response)` and returns its result unchanged
(characteristic.py:69-85). -/
theorem c7_read_write_pure_delegation (a : BLEAttribute) (t : Transport)
    (data : Bytes) (response : Bool) :
    a.read t = ([TransportCall.readCall a.value_handle],
      t.read_handle a.value_handle) ∧
    a.write t data response
      = ([TransportCall.writeCall a.value_handle data response],
        t.write_handle a.value_handle data response) :=
  ⟨rfl, rfl⟩

/-- C8: when `value_handle + 1 > end_handle` the early return at
characteristic.py:167-168 yields the empty descriptor dict, no
`discover_descriptors` transport call is made, and the device state is
untouched. -/
theorem c8_empty_range_no_discovery_call (req : Requester) (dev : DeviceState)
    (value_handle end_handle : Nat) (h : value_handle + 1 > end_handle) :
    BLECharacteristic.discover_descriptors req dev value_handle end_handle
      = (Except.ok (DiscoverResult.emptyDict, dev), []) ∧
    discoverBucketsOf req dev value_handle end_handle = Except.ok [] := by
  unfold BLECharacteristic.discover_descriptors discoverBucketsOf
  rw [if_pos h, if_pos h]
  exact ⟨rfl, rfl⟩

/-- C8 witness: range `(5,5]` is empty. -/
theorem c8_witness :
    BLECharacteristic.discover_descriptors sampleDiscReq dev0 5 5
      = (Except.ok (DiscoverResult.emptyDict, dev0), []) ∧
    discoverBucketsOf sampleDiscReq dev0 5 5 = Except.ok [] :=
  c8_empty_range_no_discovery_call sampleDiscReq dev0 5 5 (by decide)

/-- C10: over a non-empty range, when no descriptor is successfully
constructed — the transport reports zero elements, or every element's
lookup raises the caught not-found `RuntimeError` — the final
`return desc` at characteristic.py:183 reads a local variable that was
never bound, so `_discover_descriptors` raises `NameError` instead of
returning an empty descriptor set. -/
theorem c10_no_descriptor_constructed_raises_name_error
    (req : Requester) (dev : DeviceState) (value_handle end_handle : Nat)
    (hr : value_handle + 1 ≤ end_handle)
    (h : ∀ it ∈ req.discover_descriptors (value_handle + 1) end_handle,
      it = Except.error PyErr.runtimeError) :
    BLECharacteristic.discover_descriptors req dev value_handle end_handle
      = (Except.error PyErr.nameError, [(value_handle + 1, end_handle)]) := by
  unfold BLECharacteristic.discover_descriptors
  rw [if_neg (by omega), discoverLoop_all_not_found dev _ [] none h]

/-- C10 witness: range `(5,8]` with a single caught not-found lookup. -/
theorem c10_witness :
    BLECharacteristic.discover_descriptors sampleNotFoundReq dev0 5 8
      = (Except.error PyErr.nameError, [(6, 8)]) :=
  c10_no_descriptor_constructed_raises_name_error sampleNotFoundReq dev0 5 8
    (by decide)
    (by intro it hit
        simp only [sampleNotFoundReq, List.mem_singleton] at hit
        exact hit)

/-- `natToHexFixed` always produces exactly `w` characters. -/
theorem natToHexFixed_length (w : Nat) : ∀ n : Nat, (natToHexFixed w n).length = w := by
  induction w with
  | zero => intro n; rfl
  | succ w ih => intro n; simp [natToHexFixed, ih]

/-- A fixed-width hex rendering splits into the renderings of the high and
low digit groups. -/
theorem natToHexFixed_add (a : Nat) :
    ∀ (b n : Nat), natToHexFixed (a + b) n
      = natToHexFixed a (n / 16 ^ b) ++ natToHexFixed b (n % 16 ^ b) := by
  intro b
  induction b with
  | zero => intro n; simp [natToHexFixed]
  | succ b ih =>
    intro n
    rw [show a + (b + 1) = (a + b) + 1 from rfl]
    rw [natToHexFixed, ih (n / 16)]
    have h1 : n / 16 / 16 ^ b = n / 16 ^ (b + 1) := by
      rw [Nat.div_div_eq_div_mul, ← pow_succ']
    have h2 : n / 16 % 16 ^ b = n % 16 ^ (b + 1) / 16 := by
      rw [pow_succ', Nat.mod_mul_right_div_self]
    have h3 : n % 16 ^ (b + 1) % 16 = n % 16 := by
      rw [pow_succ']
      exact Nat.mod_mod_of_dvd n (dvd_mul_right 16 (16 ^ b))
    rw [natToHexFixed, h1, h2, h3, List.append_assoc]

/-- Characters 4-7 of an 8-digit hex rendering are the 4-digit rendering of
the value's low 16 bits. -/
theorem natToHexFixed_eight_slice (x : Nat) :
    ((natToHexFixed 8 x).drop 4).take 4 = natToHexFixed 4 (x % 2 ^ 16) := by
  have h8 : natToHexFixed 8 x
      = natToHexFixed 4 (x / 16 ^ 4) ++ natToHexFixed 4 (x % 16 ^ 4) :=
    natToHexFixed_add 4 4 x
  rw [h8, List.drop_left' (natToHexFixed_length 4 _),
    List.take_of_length_le (le_of_eq (natToHexFixed_length 4 _))]
  norm_num

/-- C9: `shortest_uuid` (characteristic.py:58-67) returns exactly the
4-hex-digit rendering of the variable 16-bit segment (bits 96-111 of the
UUID) whenever the short-UUID predicate holds, and the unmodified full
textual form otherwise. -/
theorem c9_shortest_uuid_canonicalizer (u : Uuid) :
    (is_short_uuid u = true →
      shortest_uuid u = String.mk (natToHexFixed 4 (u / 2 ^ 96 % 2 ^ 16))) ∧
    (is_short_uuid u = false → shortest_uuid u = uuidStr u) := by
  constructor
  · intro h
    unfold shortest_uuid
    rw [h, if_pos rfl]
    unfold uuidChars
    rw [natToHexFixed_add 4 4 (u / 2 ^ 96)]
    simp only [List.append_assoc]
    rw [List.drop_left' (natToHexFixed_length 4 _),
      List.take_left' (natToHexFixed_length 4 _)]
    norm_num
  · intro h
    unfold shortest_uuid
    rw [h]
    simp

/-- C9 witness: the short UUID `00001800-0000-1000-8000-00805f9b34fb`
canonicalizes to `"1800"`; a UUID differing from the base pattern in its
top 32 bits renders as its full textual form. -/
theorem c9_witness :
    is_short_uuid 0x180000001000800000805F9B34FB = true ∧
    shortest_uuid 0x180000001000800000805F9B34FB = "1800" ∧
    is_short_uuid 0x12345678000010008000FFFFFFFFFFFF = false ∧
    shortest_uuid 0x12345678000010008000FFFFFFFFFFFF
      = uuidStr 0x12345678000010008000FFFFFFFFFFFF :=
  ⟨by decide,
   ((c9_shortest_uuid_canonicalizer 0x180000001000800000805F9B34FB).1
      (by decide)).trans (by decide),
   by decide,
   (c9_shortest_uuid_canonicalizer 0x12345678000010008000FFFFFFFFFFFF).2
      (by decide)⟩

/-- C6: registering callbacks appends them in order with no deduplication,
and dispatching a notification (when every registered callback returns
normally) invokes every registered callback exactly once, in registration
order, each with the exact payload: the invocation trace is precisely the
registration sequence paired with the payload. -/
theorem c6_dispatch_invokes_all_in_order (a : BLEAttribute)
    (cbs : List Callback) (data : Bytes)
    (h0 : a.notification_callbacks = [])
    (h : ∀ c ∈ cbs, c.behavior data = none) :
    BLEAttribute.on_notification (cbs.foldl BLEAttribute.notify a) data
      = (cbs.map fun c => (c.id, data), none) := by
  unfold BLEAttribute.on_notification
  rw [foldl_notify_callbacks, h0, List.nil_append]
  exact runCallbacks_all_ok cbs data h

/-- C6 witness: registering callback 1, callback 2, then callback 1 again
and dispatching `b'\x01\x02'` fires 1, 2, 1 in that order, each with that
payload — the doubly-registered callback fires twice. -/
theorem c6_witness :
    BLEAttribute.on_notification
        ([cbOkOne, cbOkTwo, cbOkOne].foldl BLEAttribute.notify sampleAttr)
        samplePayload
      = ([(1, [1, 2]), (2, [1, 2]), (1, [1, 2])], none) :=
  c6_dispatch_invokes_all_in_order sampleAttr [cbOkOne, cbOkTwo, cbOkOne]
    samplePayload rfl
    (by intro c hc
        simp only [List.mem_cons, List.not_mem_nil, or_false] at hc
        rcases hc with rfl | rfl | rfl <;> rfl)
